import Mathlib

/-!
Verification of the authenticated protocol gateway
(`servers/grafana-mcp-oauth-wrapper`): a shallow embedding of
`grafana-mcp-http-proxy.ts`, the Hono route handlers of `index.ts`, and
`custom-tool-handler.ts`, together with theorems settling the behavioural
claims about request forwarding, error normalization, tool-catalog merging,
authentication gating, process-spawn concurrency, readiness probing and the
custom datasource tools.
-/

namespace GrafanaMcp

/-! ## JSON values and JavaScript semantics helpers -/

/-- A JSON value, as produced by `JSON.parse` / consumed by `JSON.stringify`
and Hono's `c.json`.  Objects keep their fields in insertion order. -/
inductive Json where
  | null : Json
  | bool (b : Bool) : Json
  | num (n : Int) : Json
  | str (s : String) : Json
  | arr (elems : List Json) : Json
  | obj (fields : List (String × Json)) : Json
deriving Repr

/-- JavaScript truthiness of a JSON value (`undefined` is modelled as
`Json.null`, which is falsy just the same). -/
def jsTruthy : Json → Bool
  | .null => false
  | .bool b => b
  | .num n => decide (n ≠ 0)
  | .str s => decide (s ≠ "")
  | .arr _ => true
  | .obj _ => true

/-- Property access `j.k` on a JSON value: `some` the field's value when `j`
is an object binding `k`, otherwise `none` (JavaScript `undefined`). -/
def jsonLookup : Json → String → Option Json
  | .obj fields, k => (fields.find? (fun p => p.1 == k)).map (fun p => p.2)
  | _, _ => none

/-- `s.includes(pat)`: whether `pat` occurs contiguously inside `s`. -/
def strContains (s pat : String) : Bool :=
  decide (List.IsInfix pat.data s.data)

/-- `a || d` on an optional JavaScript string: the default wins when the
string is absent or empty (falsy). -/
def jsOrString (a : Option String) (d : String) : String :=
  match a with
  | some s => if s = "" then d else s
  | none => d

/-- `s.startsWith(pat)`. -/
def strStartsWith (s pat : String) : Bool :=
  pat.data.isPrefixOf s.data

/-- `s.substring(n)` for ASCII strings: drop the first `n` characters. -/
def strDrop (s : String) (n : Nat) : String :=
  ⟨s.data.drop n⟩

/-- `s.toLowerCase()`. -/
def strToLower (s : String) : String :=
  ⟨s.data.map Char.toLower⟩

/-- The whitespace characters `String.prototype.trim` strips. -/
def isJsWhitespace (c : Char) : Bool :=
  c == ' ' || c == '\t' || c == '\n' || c == '\r' || c == '\x0b' || c == '\x0c'

/-- `s.trim()`: strip whitespace from both ends. -/
def strTrim (s : String) : String :=
  ⟨((s.data.dropWhile isJsWhitespace).reverse.dropWhile
      isJsWhitespace).reverse⟩

/-! ## `grafana-mcp-http-proxy.ts`: request forwarding (`handleMcpRequest`)

The backend tool-server is modelled, for one fixed forwarded request body, as
a function from the optional `mcp-session-id` header to the HTTP response it
returns; `handleMcpRequest` is then a pure function of that oracle. -/

/-- The status, status text and body text of a backend `fetch` response. -/
structure BackendResp where
  status : Nat
  statusText : String
  body : String
deriving Repr, DecidableEq

/-- `Response.ok` of the Fetch API: status in the range 200–299. -/
def respOk (r : BackendResp) : Bool :=
  decide (200 ≤ r.status) && decide (r.status < 300)

/-- The needs-session failure recognised by the proxy:
`response.status === 400 && responseBody.includes('Invalid session ID')`. -/
def needsSessionReject (r : BackendResp) : Bool :=
  r.status == 400 && strContains r.body "Invalid session ID"

/-- The body of a response the gateway returns for a forwarded request:
either the backend's body passed through verbatim, or a JSON value the
gateway itself serialized (`JSON.stringify(errorResponse)`). -/
inductive ProxyBody where
  | raw (s : String) : ProxyBody
  | json (j : Json) : ProxyBody
deriving Repr

/-- A response of `handleMcpRequest`. -/
structure ProxyResp where
  status : Nat
  body : ProxyBody
deriving Repr

/-- The envelope `handleMcpRequest` synthesizes for a plain-text error body:
`{jsonrpc:'2.0', id: requestBody.id || 1, error: {code:-32603,
message:'Internal error', data: responseBody.trim()}}`. -/
def synthesizedError (requestBody : Json) (responseBody : String) : Json :=
  let idVal := (jsonLookup requestBody "id").getD Json.null
  Json.obj
    [("jsonrpc", Json.str "2.0"),
     ("id", if jsTruthy idVal then idVal else Json.num 1),
     ("error", Json.obj
       [("code", Json.num (-32603)),
        ("message", Json.str "Internal error"),
        ("data", Json.str (strTrim responseBody))])]

/-- `GrafanaMcpHttpProxy.handleMcpRequest` after initialization has
succeeded.  `backend sid` is the backend's response to the forwarded request
when the `mcp-session-id` header is `sid`.  Besides the response handed to
the caller, the session headers of the backend calls actually made are
returned, in order, so that the retry discipline is visible:

* first `fetch` with the caller's session header;
* on `400` + `'Invalid session ID'`, exactly one retry without the header,
  whose response is passed through verbatim;
* otherwise, a non-ok response with a nonempty body not starting with `'{'`
  (after trimming) is replaced by a synthesized JSON-RPC error envelope at
  status 200; everything else is passed through verbatim. -/
def handleMcpRequest (backend : Option String → BackendResp)
    (requestBody : Json) (sessionId : Option String) :
    ProxyResp × List (Option String) :=
  let response := backend sessionId
  if needsSessionReject response then
    let retryResponse := backend none
    (⟨retryResponse.status, ProxyBody.raw retryResponse.body⟩,
     [sessionId, none])
  else if !respOk response && response.body != ""
      && !(strStartsWith (strTrim response.body) "\x7b") then
    (⟨200, ProxyBody.json (synthesizedError requestBody response.body)⟩,
     [sessionId])
  else
    (⟨response.status, ProxyBody.raw response.body⟩, [sessionId])

/-! ## `grafana-mcp-http-proxy.ts`: readiness probing (`waitForServer`) -/

/-- Outcome of one readiness `POST` probe that did not throw: the status and
the body text (a body whose read failed is the empty string, per
`await res.text().catch(() => '')`). -/
structure PostProbe where
  status : Nat
  body : String
deriving Repr, DecidableEq

/-- Outcome of one readiness `GET` (SSE) probe that did not throw: the status
and the `content-type` header (`none` when the header is absent). -/
structure SseProbe where
  status : Nat
  contentType : Option String
deriving Repr, DecidableEq

/-- The environment one connection attempt runs against: `none` models a
`fetch` that threw (refused connection / abort timeout). -/
structure AttemptEnv where
  post : Option PostProbe
  sse : Option SseProbe
deriving Repr, DecidableEq

/-- The SSE fallback probe confirms readiness iff status 200 and the
lower-cased `content-type` contains `text/event-stream`. -/
def sseReady : Option SseProbe → Bool
  | some s =>
      s.status == 200
        && strContains (strToLower (s.contentType.getD "")) "text/event-stream"
  | none => false

/-- One iteration of the `waitForServer` loop: POST first (ready on 2xx, or
on 400 with `'Invalid session ID'` in the body), then the SSE fallback. -/
def attemptReady (a : AttemptEnv) : Bool :=
  match a.post with
  | some r =>
      if respOk ⟨r.status, "", r.body⟩ then true
      else if r.status == 400 && strContains r.body "Invalid session ID" then
        true
      else sseReady a.sse
  | none => sseReady a.sse

/-- `const maxRetries = 10`. -/
def maxRetries : Nat := 10

/-- `const retryDelayMs = 500`. -/
def retryDelayMs : Nat := 500

/-- The retry loop of `waitForServer`, with the attempt environments given
by `envs`: returns `Except.ok` with the index of the first successful
attempt, or the thrown error message once the budget is exhausted, paired
with the total milliseconds slept (one fixed delay after every failed
attempt). -/
def waitLoop (envs : Nat → AttemptEnv) : Nat → Nat → Except String Nat × Nat
  | _, 0 => (Except.error "MCP server failed to start", 0)
  | i, fuel + 1 =>
      if attemptReady (envs i) then (Except.ok i, 0)
      else
        let rest := waitLoop envs (i + 1) fuel
        (rest.1, retryDelayMs + rest.2)

/-- `GrafanaMcpHttpProxy.waitForServer`. -/
def waitForServer (envs : Nat → AttemptEnv) : Except String Nat × Nat :=
  waitLoop envs 0 maxRetries

/-! ## `grafana-mcp-http-proxy.ts`: lazy initialization under concurrency

`initializeMcpServer` guards the spawn with the instance fields
`isInitialized` / `mcpProcess` / `killed`.  In Node's event loop the check
and the spawn run atomically (no `await` separates them), while
`await this.waitForServer()` suspends; `isInitialized = true` is only set
after that await resolves.  A demand is therefore a thread taking two atomic
steps, and concurrent demands are an interleaving of such threads. -/

/-- The proxy instance state read and written by `initializeMcpServer`. -/
structure SupState where
  isInitialized : Bool
  hasProcess : Bool
  killed : Bool
  spawnCount : Nat
deriving Repr, DecidableEq

/-- Where one demand (one call of `initializeMcpServer`) currently stands:
before the check, suspended in `await waitForServer()`, or returned. -/
inductive DemandPhase where
  | start : DemandPhase
  | waiting : DemandPhase
  | done : DemandPhase
deriving Repr, DecidableEq

/-- One atomic step of a demand.  From `start`: if
`isInitialized && mcpProcess && !killed` the call returns at once, else it
spawns (incrementing the spawn count) and suspends in the readiness wait.
From `waiting`: the wait resolves and `isInitialized` is set. -/
def demandStep (s : SupState) : DemandPhase → SupState × DemandPhase
  | .start =>
      if s.isInitialized && s.hasProcess && !s.killed then (s, .done)
      else
        ({s with hasProcess := true, killed := false,
                 spawnCount := s.spawnCount + 1}, .waiting)
  | .waiting => ({s with isInitialized := true}, .done)
  | .done => (s, .done)

/-- Run an interleaving: `sched` names, in order, the demand thread that
takes its next atomic step (out-of-range entries are skipped). -/
def runSchedule (sched : List Nat) (s : SupState)
    (threads : List DemandPhase) : SupState × List DemandPhase :=
  match sched with
  | [] => (s, threads)
  | i :: rest =>
      match threads.get? i with
      | none => runSchedule rest s threads
      | some ph =>
          let step := demandStep s ph
          runSchedule rest step.1 (threads.set i step.2)

/-- The state of a freshly constructed proxy: not initialized, `mcpProcess`
null, nothing spawned. -/
def initialSupState : SupState := ⟨false, false, false, 0⟩

/-! ## `index.ts`: the authenticated POST envelope endpoint -/

/-- `CustomToolHandler.isCustomTool`: only the two locally implemented tool
names are handled by the gateway itself. -/
def isCustomTool (method : String) : Bool :=
  method == "query_datasource" || method == "list_datasources_detailed"

/-- `body.method === m` for a string literal `m`: strict equality, true only
when the `method` field exists and is exactly that string. -/
def isMethod (body : Json) (m : String) : Bool :=
  match jsonLookup body "method" with
  | some (.str s) => s == m
  | _ => false

/-- Where the POST handler sends an authenticated envelope. -/
inductive Dispatch where
  | customTool (name : String) : Dispatch
  | toolsList : Dispatch
  | forward : Dispatch
deriving Repr, DecidableEq

/-- The classification the POST handler performs after authentication:
`tools/call` with a truthy `params.name` naming a custom tool is handled
locally; `tools/list` is merged; everything else is forwarded. -/
def classify (body : Json) : Dispatch :=
  let fallThrough :=
    if isMethod body "tools/list" then Dispatch.toolsList
    else Dispatch.forward
  if isMethod body "tools/call" then
    match (jsonLookup body "params").bind (fun p => jsonLookup p "name") with
    | some nameVal =>
        if jsTruthy nameVal then
          match nameVal with
          | .str toolName =>
              if isCustomTool toolName then Dispatch.customTool toolName
              else fallThrough
          | _ => fallThrough
        else fallThrough
    | none => fallThrough
  else fallThrough

/-- Outcome of the POST handler's authentication section: a 401 rejection
never reaches the bridge, a dispatched request does. -/
inductive PostOutcome where
  | authFail (status : Nat) (error errorDescription : String) : PostOutcome
  | dispatched (d : Dispatch) : PostOutcome
deriving Repr, DecidableEq

/-- The authentication gate of `app.post`: reject with 401 when the
`Authorization` header is absent or lacks the `Bearer ` scheme, validate the
remaining token (`authHeader.substring(7)`), reject with 401 when validation
throws, and only then classify the body for dispatch.  `validate` is the
oracle for `oauthValidator.validateToken` (false = throws). -/
def postAuthAndDispatch (validate : String → Bool)
    (authHeader : Option String) (body : Json) : PostOutcome :=
  match authHeader with
  | none =>
      .authFail 401 "unauthorized" "Missing or invalid authorization header"
  | some ah =>
      if !(strStartsWith ah "Bearer ") then
        .authFail 401 "unauthorized" "Missing or invalid authorization header"
      else if !(validate (strDrop ah 7)) then
        .authFail 401 "unauthorized" "Invalid or expired access token"
      else .dispatched (classify body)

/-- Whether an outcome is a 401 rejection whose JSON body carries a nonempty
`error` and a nonempty `error_description` field. -/
def isAuthFail401 : PostOutcome → Bool
  | .authFail status e d => status == 401 && e != "" && d != ""
  | .dispatched _ => false

/-- Whether an outcome reached the bridge dispatch (custom tools, the
tools/list merge, or the backend forward). -/
def reachedDispatch : PostOutcome → Bool
  | .authFail _ _ _ => false
  | .dispatched _ => true

/-- Whether the request is rejected by the authentication gate: no header,
no `Bearer ` scheme, or a token that fails validation. -/
def authRejected (validate : String → Bool) (authHeader : Option String) :
    Bool :=
  match authHeader with
  | none => true
  | some ah => !(strStartsWith ah "Bearer ") || !(validate (strDrop ah 7))

/-! ## `index.ts`: the tools/list merge -/

/-- The two custom tool descriptors declared inline in the `tools/list`
branch of `app.post`. -/
def customTools : List Json :=
  [Json.obj
    [("name", Json.str "list_datasources_detailed"),
     ("description", Json.str
       "List all Grafana datasources with detailed information including query examples for Azure Monitor (KQL), Prometheus (PromQL), SQL databases, and more"),
     ("inputSchema", Json.obj
       [("type", Json.str "object"),
        ("properties", Json.obj []),
        ("required", Json.arr [])])],
   Json.obj
    [("name", Json.str "query_datasource"),
     ("description", Json.str
       "Query any Grafana datasource using native query formats (KQL for Azure Monitor, PromQL for Prometheus, SQL for databases, etc.)"),
     ("inputSchema", Json.obj
       [("type", Json.str "object"),
        ("properties", Json.obj
          [("datasourceUid", Json.obj
            [("type", Json.str "string"),
             ("description", Json.str "The UID of the datasource to query")]),
           ("query", Json.obj
            [("type", Json.str "object"),
             ("description", Json.str
               "Query object in native format (e.g., \x7bkusto: \"KQL query\"\x7d for Azure Monitor, \x7bexpr: \"PromQL\"\x7d for Prometheus)")]),
           ("timeRange", Json.obj
            [("type", Json.str "object"),
             ("properties", Json.obj
               [("from", Json.obj
                 [("type", Json.str "string"),
                  ("description", Json.str "Start time (e.g., \"now-1h\")")]),
                ("to", Json.obj
                 [("type", Json.str "string"),
                  ("description", Json.str "End time (e.g., \"now\")")])])]),
           ("maxDataPoints", Json.obj
            [("type", Json.str "number"),
             ("description", Json.str
               "Maximum number of data points to return")])]),
        ("required", Json.arr
          [Json.str "datasourceUid", Json.str "query"])])]]

/-- The `name` fields of the tool descriptors in a catalog. -/
def toolNames (tools : List Json) : List String :=
  tools.filterMap (fun t =>
    match jsonLookup t "name" with
    | some (.str s) => some s
    | _ => none)

/-- The `tools/list` branch of `app.post`, applied to the parsed backend
response `grafanaData` (a response that failed to parse is replaced by
`{result: {tools: []}}` before this point) and the request's `id`: when
`grafanaData.result && grafanaData.result.tools` holds and the tools are an
array, the two catalogs are concatenated and wrapped in a fresh envelope;
otherwise the backend response is returned as-is; spreading a truthy
non-array throws, which the surrounding catch turns into a 500. -/
def toolsListHandler (grafanaData : Json) (bodyId : Json) : Nat × Json :=
  match jsonLookup grafanaData "result" with
  | some res =>
      if jsTruthy res then
        match jsonLookup res "tools" with
        | some tools =>
            if jsTruthy tools then
              match tools with
              | .arr grafanaTools =>
                  (200, Json.obj
                    [("jsonrpc", Json.str "2.0"),
                     ("id", bodyId),
                     ("result", Json.obj
                       [("tools", Json.arr (grafanaTools ++ customTools))])])
              | _ =>
                  (500, Json.obj
                    [("error", Json.str "internal_error"),
                     ("error_description", Json.str
                       "Failed to combine tools")])
            else (200, grafanaData)
        | none => (200, grafanaData)
      else (200, grafanaData)
  | none => (200, grafanaData)

/-! ## `index.ts`: the DELETE session-termination endpoint -/

/-- `c.req.header(k)`: HTTP header lookup, case-insensitive in the header
name. -/
def headerLookup (headers : List (String × String)) (k : String) :
    Option String :=
  (headers.find? (fun p => strToLower p.1 == strToLower k)).map (fun p => p.2)

/-- `app.delete`: no authentication step; in `http` transport mode the
request is forwarded to the backend with the `mcp-session-id` header when
present (`backend` maps that optional header to the backend's DELETE
response), and the backend response is passed through; any other transport
mode answers `400 {error: 'not_supported'}`. -/
def deleteHandler (mcpTransport : String)
    (backend : Option String → BackendResp)
    (headers : List (String × String)) : Nat × String :=
  if mcpTransport == "http" then
    let sessionId := headerLookup headers "mcp-session-id"
    let response := backend sessionId
    (response.status, response.body)
  else
    (400, "\x7b\"error\":\"not_supported\"\x7d")

/-! ## `custom-tool-handler.ts`: the locally implemented tools -/

mutual

/-- `JSON.stringify` (string escaping and the `null, 2` pretty-printing
whitespace of the source's calls are not reproduced; field order is). -/
def Json.stringify : Json → String
  | .null => "null"
  | .bool b => cond b "true" "false"
  | .num n => toString n
  | .str s => "\"" ++ s ++ "\""
  | .arr xs => "[" ++ Json.stringifyElems xs ++ "]"
  | .obj fs => "\x7b" ++ Json.stringifyFields fs ++ "\x7d"

/-- Comma-separated serialization of an array's elements. -/
def Json.stringifyElems : List Json → String
  | [] => ""
  | [x] => Json.stringify x
  | x :: xs => Json.stringify x ++ "," ++ Json.stringifyElems xs

/-- Comma-separated serialization of an object's fields. -/
def Json.stringifyFields : List (String × Json) → String
  | [] => ""
  | [(k, v)] => "\"" ++ k ++ "\":" ++ Json.stringify v
  | (k, v) :: fs =>
      "\"" ++ k ++ "\":" ++ Json.stringify v ++ "," ++ Json.stringifyFields fs

end

mutual

/-- Template-literal rendering `${v}` of a JSON value. -/
def jsTemplate : Json → String
  | .null => "null"
  | .bool b => cond b "true" "false"
  | .num n => toString n
  | .str s => s
  | .arr xs => jsTemplateJoin xs
  | .obj _ => "[object Object]"

/-- `Array.prototype.toString`: elements joined by commas, null rendered
empty. -/
def jsTemplateJoin : List Json → String
  | [] => ""
  | [Json.null] => ""
  | [x] => jsTemplate x
  | Json.null :: xs => "," ++ jsTemplateJoin xs
  | x :: xs => jsTemplate x ++ "," ++ jsTemplateJoin xs

end

/-- Template-literal rendering of a possibly-undefined value. -/
def jsTemplateOpt : Option Json → String
  | some j => jsTemplate j
  | none => "undefined"

/-- `typeof v === 'object'` (true for objects, arrays and `null`). -/
def typeofObject : Json → Bool
  | .obj _ => true
  | .arr _ => true
  | .null => true
  | _ => false

/-- The optional `timeRange` argument of `query_datasource`; either bound
may be missing. -/
structure TimeRange where
  fromT : Option String
  toT : Option String
deriving Repr, DecidableEq

/-- The destructured arguments of `query_datasource`
(`QueryDatasourceParams`). -/
structure QueryDatasourceParams where
  datasourceUid : String
  query : Json
  timeRange : Option TimeRange
  maxDataPoints : Option Int
deriving Repr

/-- Outcome of one upstream telemetry-API `fetch`: the call threw, returned
a non-ok response whose body was read as text, or returned an ok response
whose body parsed as JSON. -/
inductive UpstreamOutcome where
  | threw (msg : String) : UpstreamOutcome
  | httpError (status : Nat) (statusText : String) (bodyText : String) :
      UpstreamOutcome
  | success (body : Json) : UpstreamOutcome
deriving Repr

/-- Object-literal spread semantics: the fields of `ys` override
like-named fields of `xs`, so a lookup sees the later assignment. -/
def objMerge (xs ys : List (String × Json)) : List (String × Json) :=
  xs.filter (fun p => !(ys.any (fun q => q.1 == p.1))) ++ ys

/-- The own enumerable fields `...q` contributes to an object literal: the
fields of an object; numbers, booleans and null contribute none (string
index-spreading is not modelled). -/
def queryFields : Json → List (String × Json)
  | .obj fs => fs
  | _ => []

/-- The single query object `queryDatasource` builds:
`{datasource: {uid: datasourceUid}, ...query, refId: 'A',
...(timeRange && {timeRange: {from: timeRange.from || 'now-1h',
to: timeRange.to || 'now'}}), ...(maxDataPoints && {maxDataPoints})}`. -/
def buildQuery (p : QueryDatasourceParams) : List (String × Json) :=
  let base := [("datasource", Json.obj [("uid", Json.str p.datasourceUid)])]
  let afterQuery := objMerge base (queryFields p.query)
  let timeRangeFields :=
    match p.timeRange with
    | some t =>
        [("timeRange", Json.obj
          [("from", Json.str (jsOrString t.fromT "now-1h")),
           ("to", Json.str (jsOrString t.toT "now"))])]
    | none => []
  let maxDataPointsFields :=
    match p.maxDataPoints with
    | some n => if n ≠ 0 then [("maxDataPoints", Json.num n)] else []
    | none => []
  objMerge afterQuery
    ([("refId", Json.str "A")] ++ timeRangeFields ++ maxDataPointsFields)

/-- The request body sent to `POST /api/ds/query`: a `queries` array holding
exactly the one built query. -/
def buildQueryRequest (p : QueryDatasourceParams) : Json :=
  Json.obj [("queries", Json.arr [Json.obj (buildQuery p)])]

/-- `result.results?.A?.frames?.length || 0`. -/
def frameCountOf (result : Json) : Nat :=
  match ((jsonLookup result "results").bind
      (fun r => jsonLookup r "A")).bind (fun a => jsonLookup a "frames") with
  | some (.arr frames) => frames.length
  | _ => 0

/-- The first content item of a `query_datasource` result: the textual
summary carrying the frame count, the datasource uid, the stringified query
and the effective time range. -/
def querySummaryText (p : QueryDatasourceParams) (frameCount : Nat) :
    String :=
  let summary := "Query executed successfully. Returned "
    ++ toString frameCount ++ " data frames."
  "**Query Results Summary**\n\n" ++ summary
    ++ "\n\n**Datasource**: " ++ p.datasourceUid
    ++ "\n**Query**: " ++ Json.stringify p.query
    ++ "\n**Time Range**: "
    ++ (match p.timeRange with
        | some t => jsOrString t.fromT "now-1h"
        | none => "now-1h")
    ++ " to "
    ++ (match p.timeRange with
        | some t => jsOrString t.toT "now"
        | none => "now")
    ++ "\n\n**Data Frames**: " ++ toString frameCount

/-- The second content item of a `query_datasource` result: the raw result
payload. -/
def queryRawText (result : Json) : String :=
  "**Raw Data**:\n```json\n" ++ Json.stringify result ++ "\n```"

/-- `CustomToolHandler.queryDatasource`, with the upstream `fetch` of
`/api/ds/query` given as an oracle: a thrown fetch propagates, a non-ok
response throws `Grafana query failed: …`, and an ok response yields the
two-part tool content (frame-count summary, then the raw payload). -/
def queryDatasource (p : QueryDatasourceParams)
    (upstream : UpstreamOutcome) : Except String Json :=
  match upstream with
  | .threw msg => .error msg
  | .httpError status statusText errorText =>
      .error ("Grafana query failed: " ++ toString status ++ " "
        ++ statusText ++ " - " ++ errorText)
  | .success result =>
      let frameCount := frameCountOf result
      .ok (Json.obj [("content", Json.arr
        [Json.obj
          [("type", Json.str "text"),
           ("text", Json.str (querySummaryText p frameCount))],
         Json.obj
          [("type", Json.str "text"),
           ("text", Json.str (queryRawText result))]])])

/-- The `DatasourceInfo` record `listDatasourcesDetailed` builds per
datasource. -/
structure DatasourceInfo where
  uid : Option Json
  name : Option Json
  type : Option Json
  url : Option Json
  isDefault : Bool
deriving Repr

/-- One entry of the datasource summary text. -/
def datasourceLine (d : DatasourceInfo) : String :=
  "**" ++ jsTemplateOpt d.name ++ "** (" ++ jsTemplateOpt d.type
    ++ ")\n- UID: `" ++ jsTemplateOpt d.uid ++ "`\n- Default: "
    ++ (if d.isDefault then "Yes" else "No")
    ++ "\n- URL: "
    ++ (match d.url with
        | some u => if jsTruthy u then jsTemplate u else "N/A"
        | none => "N/A")

/-- The static `queryExamples` table of `listDatasourcesDetailed`. -/
def queryExamples : List (String × List (String × Json)) :=
  [("grafana-azure-monitor-datasource",
    [("logs", Json.obj
      [("kusto", Json.str
        "Heartbeat | where TimeGenerated > ago(1h) | limit 10"),
       ("description", Json.str "KQL query for Azure Monitor Logs")]),
     ("metrics", Json.obj
      [("metricDefinition", Json.obj
        [("resourceGroup", Json.str "your-resource-group"),
         ("metricNamespace", Json.str
           "Microsoft.Compute/virtualMachines"),
         ("resourceName", Json.str "your-vm-name"),
         ("metricName", Json.str "Percentage CPU")]),
       ("description", Json.str "Azure Monitor metrics query")])]),
   ("prometheus",
    [("query", Json.obj
      [("expr", Json.str "up"),
       ("description", Json.str "PromQL query for Prometheus")])]),
   ("loki",
    [("query", Json.obj
      [("expr", Json.str "\x7bjob=\"your-job\"\x7d |= \"error\""),
       ("description", Json.str "LogQL query for Loki")])]),
   ("mysql",
    [("query", Json.obj
      [("rawSql", Json.str "SELECT * FROM your_table LIMIT 10"),
       ("description", Json.str "SQL query for MySQL")])]),
   ("postgres",
    [("query", Json.obj
      [("rawSql", Json.str "SELECT * FROM your_table LIMIT 10"),
       ("description", Json.str "SQL query for PostgreSQL")])]),
   ("influxdb",
    [("query", Json.obj
      [("query", Json.str
        "from(bucket:\"your-bucket\") |> range(start: -1h) |> limit(n:10)"),
       ("description", Json.str "Flux query for InfluxDB")])])]

/-- The success content of `list_datasources_detailed`: the datasource
summary, the rendered query-example table, and the static usage guide. -/
def datasourcesContent (datasources : List Json) : Json :=
  let infos : List DatasourceInfo := datasources.map (fun d =>
    { uid := jsonLookup d "uid"
      name := jsonLookup d "name"
      type := jsonLookup d "type"
      url := jsonLookup d "url"
      isDefault :=
        match jsonLookup d "isDefault" with
        | some j => jsTruthy j
        | none => false })
  Json.obj [("content", Json.arr
    [Json.obj
      [("type", Json.str "text"),
       ("text", Json.str ("**Datasources Found**: "
         ++ toString infos.length ++ "\n\n"
         ++ String.intercalate "\n\n" (infos.map datasourceLine)))],
     Json.obj
      [("type", Json.str "text"),
       ("text", Json.str ("**Query Examples**:\n\n"
         ++ String.intercalate "\n\n" (queryExamples.map (fun te =>
              "**" ++ te.1 ++ "**:\n"
                ++ String.intercalate "\n" (te.2.map (fun kv =>
                     "- " ++ kv.1 ++ ": `"
                       ++ (if typeofObject kv.2 then Json.stringify kv.2
                           else jsTemplate kv.2) ++ "`"))))))],
     Json.obj
      [("type", Json.str "text"),
       ("text", Json.str
         "**Usage Guide**:\n- Azure Monitor: Use \x7bqueryType: \"Azure Log Analytics\", azureLogAnalytics: \x7bquery: \"your KQL query\", workspace: \"workspace-id\"\x7d\x7d\n- Prometheus: Use \x7bexpr: \"your PromQL query\"\x7d\n- SQL databases: Use \x7brawSql: \"your SQL query\"\x7d\n- Loki: Use \x7bexpr: \"your LogQL query\"\x7d")]])]

/-- `CustomToolHandler.listDatasourcesDetailed`, with the upstream `fetch`
of `/api/datasources` given as an oracle: a thrown fetch propagates, a
non-ok response throws `Failed to fetch datasources: …`, an ok response
must be a JSON array (`.map` on anything else throws a `TypeError`). -/
def listDatasourcesDetailed (upstream : UpstreamOutcome) :
    Except String Json :=
  match upstream with
  | .threw msg => .error msg
  | .httpError status statusText errorText =>
      .error ("Failed to fetch datasources: " ++ toString status ++ " "
        ++ statusText ++ " - " ++ errorText)
  | .success body =>
      match body with
      | .arr datasources => .ok (datasourcesContent datasources)
      | _ => .error "datasources.map is not a function"

/-- The result of the `initialize` case of `handleCustomTool`. -/
def initializeResult : Json :=
  Json.obj
    [("protocolVersion", Json.str "2025-06-18"),
     ("capabilities", Json.obj [("tools", Json.obj [])]),
     ("serverInfo", Json.obj
       [("name", Json.str "grafana-mcp-custom-tools"),
        ("version", Json.str "1.0.0")]),
     ("instructions", Json.str
       "Custom Grafana MCP tools for enhanced datasource querying.\n\nAvailable tools:\n- query_datasource: Query any Grafana datasource by UID with native query format\n- list_datasources_detailed: Get detailed information about all configured datasources\n\nThese tools extend the official Grafana MCP server with generic datasource querying capabilities.")]

/-- Modelled from the spec: the `customTools` table imported from
`custom-mcp-tools.ts` is not among the sources; per the component design
the gateway implements exactly the two local tools whose descriptors
`index.ts` also declares inline, so `Object.values(customTools)` is taken
to be that same two-descriptor list. -/
def customToolsTable : List Json := customTools

/-- The `switch (method)` body of `handleCustomTool`; `Except.error` is a
thrown `Error`'s message.  `upstreamQuery` / `upstreamDatasources` are the
oracles for the two upstream telemetry calls. -/
def dispatchCustomTool (method : String) (p : QueryDatasourceParams)
    (upstreamQuery upstreamDatasources : UpstreamOutcome) :
    Except String Json :=
  if method == "initialize" then .ok initializeResult
  else if method == "tools/list" then
    .ok (Json.obj [("tools", Json.arr customToolsTable)])
  else if method == "query_datasource" then queryDatasource p upstreamQuery
  else if method == "list_datasources_detailed" then
    listDatasourcesDetailed upstreamDatasources
  else .error ("Unknown custom tool: " ++ method)

/-- `CustomToolHandler.handleCustomTool`: every thrown error is caught and
turned into a JSON-RPC error envelope carrying the request's `id`; the
caught `Error` object in the `data` field serializes as an empty object. -/
def handleCustomTool (id : Json) (method : String)
    (p : QueryDatasourceParams)
    (upstreamQuery upstreamDatasources : UpstreamOutcome) : Json :=
  match dispatchCustomTool method p upstreamQuery upstreamDatasources with
  | .ok result =>
      Json.obj
        [("jsonrpc", Json.str "2.0"), ("id", id), ("result", result)]
  | .error msg =>
      Json.obj
        [("jsonrpc", Json.str "2.0"), ("id", id),
         ("error", Json.obj
           [("code", Json.num (-1)),
            ("message", Json.str msg),
            ("data", Json.obj [])])]

/-- The custom-tool branch of `app.post`: `return c.json(response)`, which
serializes the envelope at the default transport status 200. -/
def customToolBranch (id : Json) (method : String)
    (p : QueryDatasourceParams)
    (upstreamQuery upstreamDatasources : UpstreamOutcome) : Nat × Json :=
  (200, handleCustomTool id method p upstreamQuery upstreamDatasources)

/-! ## Spec-side predicates -/

/-- The readiness condition exactly as the specification words it: the
minimal POST handshake returned 2xx; or it returned status 400 with a body
containing the needs-session failure text; or the GET probe of the
streaming channel returned status 200 with a `text/event-stream` content
type. -/
def confirmsReady (a : AttemptEnv) : Prop :=
  (∃ r, a.post = some r ∧ 200 ≤ r.status ∧ r.status < 300)
  ∨ (∃ r, a.post = some r ∧ r.status = 400
      ∧ strContains r.body "Invalid session ID" = true)
  ∨ (∃ s, a.sse = some s ∧ s.status = 200
      ∧ strContains (strToLower (s.contentType.getD "")) "text/event-stream"
          = true)

/-- Whether an upstream telemetry call failed (threw, or returned a non-2xx
response). -/
def upstreamFailed : UpstreamOutcome → Bool
  | .threw _ => true
  | .httpError _ _ _ => true
  | .success _ => false

/-! ## C1: synthesis of an envelope for malformed backend bodies -/

/-- C1, counterexample: the backend answers a forwarded request (id 7) with
status 200 and the body `oops`, which is not a well-formed protocol
envelope; `handleMcpRequest` passes the raw body through unchanged instead
of synthesizing an error envelope, because the synthesis branch requires a
non-ok transport status. -/
theorem C1_counterexample :
    (handleMcpRequest (fun _ => ⟨200, "OK", "oops"⟩)
        (Json.obj [("id", Json.num 7)]) none).1
      = ⟨200, ProxyBody.raw "oops"⟩
    ∧ ProxyBody.raw "oops"
        ≠ ProxyBody.json
            (synthesizedError (Json.obj [("id", Json.num 7)]) "oops") :=
  ⟨rfl, fun h => ProxyBody.noConfusion h⟩

/-- C1, amended: for every forwarded request whose backend response (outside
the invalid-session retry path) has a non-2xx status and a nonempty body
that does not start with `{` after trimming, and whose request id is truthy,
`handleMcpRequest` synthesizes an envelope carrying that same id, error code
-32603, message `Internal error`, and the trimmed raw backend body as
diagnostic data, returned at transport status 200. -/
theorem C1_synthesized_envelope (backend : Option String → BackendResp)
    (requestBody : Json) (sessionId : Option String)
    (hretry : needsSessionReject (backend sessionId) = false)
    (hok : respOk (backend sessionId) = false)
    (hbody : (backend sessionId).body ≠ "")
    (hbrace : strStartsWith (strTrim (backend sessionId).body) "\x7b"
        = false)
    (hid : jsTruthy ((jsonLookup requestBody "id").getD Json.null) = true) :
    (handleMcpRequest backend requestBody sessionId).1
      = ⟨200, ProxyBody.json (Json.obj
          [("jsonrpc", Json.str "2.0"),
           ("id", (jsonLookup requestBody "id").getD Json.null),
           ("error", Json.obj
             [("code", Json.num (-32603)),
              ("message", Json.str "Internal error"),
              ("data", Json.str (strTrim (backend sessionId).body))])])⟩ := by
  have hne : ((backend sessionId).body == "") = false :=
    beq_eq_false_iff_ne.mpr hbody
  simp [handleMcpRequest, hretry, hok, hne, hbrace, synthesizedError, hid,
    hbody]

/-- C1, witness: the spec scenario — backend returns plain-text
`internal error` at status 500 for a request with id 7; the gateway returns
the synthesized envelope `{id: 7, error: {code: -32603, message: Internal
error, data: internal error}}` at transport 200. -/
theorem C1_witness :
    needsSessionReject ⟨500, "Internal Server Error", "internal error"⟩
        = false
    ∧ (handleMcpRequest
          (fun _ => ⟨500, "Internal Server Error", "internal error"⟩)
          (Json.obj [("id", Json.num 7)]) none).1
        = ⟨200, ProxyBody.json (Json.obj
            [("jsonrpc", Json.str "2.0"),
             ("id", Json.num 7),
             ("error", Json.obj
               [("code", Json.num (-32603)),
                ("message", Json.str "Internal error"),
                ("data", Json.str "internal error")])])⟩ := by
  refine ⟨rfl, ?_⟩
  have h := C1_synthesized_envelope
    (fun _ => ⟨500, "Internal Server Error", "internal error"⟩)
    (Json.obj [("id", Json.num 7)]) none rfl rfl (by decide) rfl rfl
  simpa using h

/-! ## C3: one retry without the session header on `Invalid session ID` -/

/-- C3: whenever the backend rejects the forwarded request with status 400
and a body containing `Invalid session ID`, the gateway makes exactly one
retry of the identical request without the session header — the backend
call trace is precisely `[sessionId, none]` — and hands the caller the
retry's response verbatim. -/
theorem C3_session_retry (backend : Option String → BackendResp)
    (requestBody : Json) (sessionId : Option String)
    (h : needsSessionReject (backend sessionId) = true) :
    (handleMcpRequest backend requestBody sessionId).2 = [sessionId, none]
    ∧ (handleMcpRequest backend requestBody sessionId).1
        = ⟨(backend none).status, ProxyBody.raw (backend none).body⟩ := by
  constructor <;> simp [handleMcpRequest, h]

/-- C3, witness: a backend that answers `400 Invalid session ID` with a
session header attached and `200 ok` without one; the gateway calls it
twice — second time header-less — and returns the retry's 200 response. -/
theorem C3_witness :
    needsSessionReject ⟨400, "Bad Request", "Invalid session ID"⟩ = true
    ∧ (handleMcpRequest
          (fun s => match s with
            | some _ => ⟨400, "Bad Request", "Invalid session ID"⟩
            | none => ⟨200, "OK", "ok"⟩)
          (Json.obj [("id", Json.num 7)]) (some "sess-1")).2
        = [some "sess-1", none]
    ∧ (handleMcpRequest
          (fun s => match s with
            | some _ => ⟨400, "Bad Request", "Invalid session ID"⟩
            | none => ⟨200, "OK", "ok"⟩)
          (Json.obj [("id", Json.num 7)]) (some "sess-1")).1
        = ⟨200, ProxyBody.raw "ok"⟩ := by
  refine ⟨rfl, ?_, ?_⟩
  · exact (C3_session_retry
      (fun s => match s with
        | some _ => ⟨400, "Bad Request", "Invalid session ID"⟩
        | none => ⟨200, "OK", "ok"⟩)
      (Json.obj [("id", Json.num 7)]) (some "sess-1") rfl).1
  · exact (C3_session_retry
      (fun s => match s with
        | some _ => ⟨400, "Bad Request", "Invalid session ID"⟩
        | none => ⟨200, "OK", "ok"⟩)
      (Json.obj [("id", Json.num 7)]) (some "sess-1") rfl).2

/-! ## C5: process spawning under concurrent demand -/

/-- C5, counterexample: two concurrent first-time demands interleaved at the
`await waitForServer()` suspension point (thread 0 checks and spawns, thread
1 checks and spawns before thread 0 marks the instance initialized): both
pass the boolean-flag check and two backend processes are spawned, not one.
The second demand does not await the in-flight attempt. -/
theorem C5_counterexample :
    (runSchedule [0, 1, 0, 1] initialSupState
        [DemandPhase.start, DemandPhase.start]).1.spawnCount = 2 := rfl

/-- Auxiliary for C5: once the instance is initialized with a live process,
every further demand step leaves the state unchanged (the start check
returns immediately, and re-marking initialized is idempotent). -/
theorem runSchedule_ready (c : Nat) (sched : List Nat)
    (threads : List DemandPhase) :
    (runSchedule sched ⟨true, true, false, c⟩ threads).1
      = ⟨true, true, false, c⟩ := by
  induction sched generalizing threads with
  | nil => rfl
  | cons i rest ih =>
      simp only [runSchedule]
      cases h : threads.get? i with
      | none => exact ih threads
      | some ph => cases ph <;> simpa [demandStep] using ih _

/-- Auxiliary for C5: an interleaving run splits across schedule
concatenation. -/
theorem runSchedule_append (s1 s2 : List Nat) (s : SupState)
    (threads : List DemandPhase) :
    runSchedule (s1 ++ s2) s threads
      = runSchedule s2 (runSchedule s1 s threads).1
          (runSchedule s1 s threads).2 := by
  induction s1 generalizing s threads with
  | nil => rfl
  | cons i rest ih =>
      simp only [List.cons_append, runSchedule]
      cases h : threads.get? i with
      | none => exact ih s threads
      | some ph => exact ih _ _

/-- C5, amended: the exactly-one-spawn guarantee holds for sequential
demands — each demand running to completion before the next begins: the
first demand spawns the sole process and every later demand passes the
check and returns without spawning.  (Under overlapping demand the
unsynchronized boolean flag admits a second spawn, see the
counterexample.) -/
theorem C5_single_spawn_sequential (n : Nat) (h : 1 ≤ n) :
    (runSchedule ((List.range n).flatMap (fun i => [i, i])) initialSupState
        (List.replicate n DemandPhase.start)).1.spawnCount = 1 := by
  obtain ⟨m, rfl⟩ : ∃ m, n = m + 1 := ⟨n - 1, by omega⟩
  rw [List.range_succ_eq_map]
  simp only [List.flatMap_cons]
  rw [runSchedule_append]
  have hfirst : runSchedule [0, 0] initialSupState
      (List.replicate (m + 1) DemandPhase.start)
      = (⟨true, true, false, 1⟩,
         DemandPhase.done :: List.replicate m DemandPhase.start) := rfl
  rw [hfirst, runSchedule_ready]

/-- C5, witness: two sequential demands spawn exactly one process. -/
theorem C5_witness :
    1 ≤ 2
    ∧ (runSchedule ((List.range 2).flatMap (fun i => [i, i])) initialSupState
        (List.replicate 2 DemandPhase.start)).1.spawnCount = 1 :=
  ⟨by decide, C5_single_spawn_sequential 2 (by decide)⟩

/-! ## C6: bounded readiness probing -/

/-- Auxiliary for C6: when every attempt within the remaining budget fails,
the probe loop consumes the whole budget, sleeps the fixed delay once per
failed attempt, and ends in the thrown error. -/
theorem waitLoop_all_fail (envs : Nat → AttemptEnv) :
    ∀ fuel i, (∀ j, j < fuel → attemptReady (envs (i + j)) = false) →
      waitLoop envs i fuel
        = (Except.error "MCP server failed to start",
           fuel * retryDelayMs) := by
  intro fuel
  induction fuel with
  | zero => intro i h; simp [waitLoop]
  | succ n ih =>
      intro i h
      have h0 : attemptReady (envs i) = false := by
        simpa using h 0 (Nat.succ_pos n)
      have hrest := ih (i + 1) (fun j hj => by
        have := h (j + 1) (by omega)
        simpa [Nat.add_assoc, Nat.add_comm 1 j] using this)
      simp [waitLoop, h0, hrest, Nat.succ_mul, Nat.add_comm]

/-- C6 (confirmed): the readiness probe makes at most `maxRetries = 10`
attempts with a fixed `retryDelayMs = 500` ms delay after each failed
attempt; when every attempt within the budget fails, `waitForServer`
terminates by throwing `MCP server failed to start` (after 10 · 500 ms of
accumulated delay) rather than retrying forever. -/
theorem C6_bounded_probe (envs : Nat → AttemptEnv)
    (h : ∀ j, j < maxRetries → attemptReady (envs j) = false) :
    waitForServer envs
      = (Except.error "MCP server failed to start",
         maxRetries * retryDelayMs) := by
  have hall := waitLoop_all_fail envs maxRetries 0 (fun j hj => by
    simpa using h j hj)
  simpa [waitForServer] using hall

/-- C6, witness: against a backend that never answers any probe, the probe
gives up with the thrown error after its 10-attempt budget and 5000 ms of
accumulated delay. -/
theorem C6_witness :
    attemptReady ⟨none, none⟩ = false
    ∧ waitForServer (fun _ => ⟨none, none⟩)
        = (Except.error "MCP server failed to start", 5000) := by
  refine ⟨rfl, ?_⟩
  have h := C6_bounded_probe (fun _ => ⟨none, none⟩) (fun _ _ => rfl)
  simpa [maxRetries, retryDelayMs] using h

/-! ## C7: the two-phase readiness check -/

/-- Auxiliary for C7: the sequential early-return structure of one probe
attempt equals the inclusive disjunction of its POST and SSE conditions. -/
theorem attemptReady_eq_or (post : Option PostProbe)
    (sse : Option SseProbe) :
    attemptReady ⟨post, sse⟩
      = ((match post with
          | some r => respOk ⟨r.status, "", r.body⟩
              || (r.status == 400
                  && strContains r.body "Invalid session ID")
          | none => false) || sseReady sse) := by
  cases post with
  | none => rfl
  | some r =>
      simp only [attemptReady]
      by_cases h1 : respOk ⟨r.status, "", r.body⟩ = true
      · simp [h1]
      · have h1f : respOk ⟨r.status, "", r.body⟩ = false :=
          eq_false_of_ne_true h1
        by_cases h2 : (r.status == 400
            && strContains r.body "Invalid session ID") = true
        · simp [h1f, h2]
        · have h2f := eq_false_of_ne_true h2
          simp [h1f, h2f]

/-- C7 (confirmed): a probe attempt confirms the backend as ready if and
only if the minimal POST handshake returned a 2xx status, or it returned
status 400 with a body containing `Invalid session ID`, or the GET probe of
the streaming channel returned status 200 with a `text/event-stream`
content type. -/
theorem C7_attempt_readiness (a : AttemptEnv) :
    attemptReady a = true ↔ confirmsReady a := by
  obtain ⟨post, sse⟩ := a
  rw [attemptReady_eq_or]
  have hsse : sseReady sse = true ↔
      (∃ s, sse = some s ∧ s.status = 200
        ∧ strContains (strToLower (s.contentType.getD ""))
            "text/event-stream" = true) := by
    cases sse with
    | none => simp [sseReady]
    | some s => simp [sseReady, Bool.and_eq_true, beq_iff_eq, and_assoc]
  cases post with
  | none =>
      simp only [Bool.or_eq_true, confirmsReady]
      simp [hsse]
  | some r =>
      simp only [Bool.or_eq_true, confirmsReady]
      rw [hsse]
      simp [respOk, Bool.and_eq_true, decide_eq_true_eq, beq_iff_eq,
        and_assoc, or_assoc]

/-! ## C2: the tools/list catalog merge -/

/-- Auxiliary for C2: tool names distribute over catalog concatenation. -/
theorem toolNames_append (a b : List Json) :
    toolNames (a ++ b) = toolNames a ++ toolNames b := by
  simp [toolNames, List.filterMap_append]

/-- C2, counterexample: when the backend itself advertises a tool named
`query_datasource`, the merged catalog the gateway returns carries two
entries with that name — the concatenation performs no deduplication, so
the no-two-entries-share-a-name half of the claim fails (the name-set
equality half still holds). -/
theorem C2_counterexample :
    (toolsListHandler (Json.obj [("result", Json.obj [("tools", Json.arr
          [Json.obj [("name", Json.str "query_datasource")]])])])
        (Json.num 1)).2
      = Json.obj
          [("jsonrpc", Json.str "2.0"), ("id", Json.num 1),
           ("result", Json.obj [("tools", Json.arr
             ([Json.obj [("name", Json.str "query_datasource")]]
               ++ customTools))])]
    ∧ ¬ (toolNames
          ([Json.obj [("name", Json.str "query_datasource")]]
            ++ customTools)).Nodup :=
  ⟨rfl, by decide⟩

/-- C2, amended: for a backend catalog response carrying a `tools` array,
the gateway returns the concatenation of the backend tools with the two
local tools, so the returned tool-name set equals the union of the
backend's advertised names and the local names; the returned catalog is
duplicate-free exactly when the backend catalog is duplicate-free and
disjoint from the local tool names — a backend tool named like a local
tool survives as a duplicate entry. -/
theorem C2_catalog_merge (grafanaTools : List Json) (bodyId : Json) :
    toolsListHandler (Json.obj [("result", Json.obj
        [("tools", Json.arr grafanaTools)])]) bodyId
      = (200, Json.obj
          [("jsonrpc", Json.str "2.0"), ("id", bodyId),
           ("result", Json.obj
             [("tools", Json.arr (grafanaTools ++ customTools))])])
    ∧ (toolNames (grafanaTools ++ customTools)).toFinset
        = (toolNames grafanaTools).toFinset
            ∪ (toolNames customTools).toFinset
    ∧ ((toolNames (grafanaTools ++ customTools)).Nodup ↔
        (toolNames grafanaTools).Nodup
          ∧ (toolNames grafanaTools).Disjoint (toolNames customTools)) := by
  have hB : (toolNames customTools).Nodup := by decide
  refine ⟨rfl, ?_, ?_⟩
  · rw [toolNames_append, List.toFinset_append]
  · rw [toolNames_append, List.nodup_append]
    simp [hB]

/-! ## C4: the authentication gate on the envelope endpoint -/

/-- C4 (confirmed): every POST to the envelope endpoint that lacks a bearer
Authorization header, or whose bearer token fails validation, is answered
with transport status 401 and a JSON body carrying both a nonempty `error`
and a nonempty `error_description` field, and is never dispatched — it
reaches neither the custom tools, nor the tools/list merge, nor the backend
forward. -/
theorem C4_auth_gate (validate : String → Bool)
    (authHeader : Option String) (body : Json)
    (h : authRejected validate authHeader = true) :
    isAuthFail401 (postAuthAndDispatch validate authHeader body) = true
    ∧ reachedDispatch (postAuthAndDispatch validate authHeader body)
        = false := by
  cases authHeader with
  | none => exact ⟨rfl, rfl⟩
  | some ah =>
      by_cases hs : strStartsWith ah "Bearer " = true
      · have hv : validate (strDrop ah 7) = false := by
          simpa [authRejected, hs] using h
        simp [postAuthAndDispatch, hs, hv, isAuthFail401, reachedDispatch]
      · have hsf : strStartsWith ah "Bearer " = false :=
          eq_false_of_ne_true hs
        simp [postAuthAndDispatch, hsf, isAuthFail401, reachedDispatch]

/-- C4, witness: a POST with a bearer header whose token fails validation is
rejected with a 401 carrying both fields and is not dispatched. -/
theorem C4_witness :
    authRejected (fun _ => false) (some "Bearer bad-token") = true
    ∧ isAuthFail401 (postAuthAndDispatch (fun _ => false)
        (some "Bearer bad-token") Json.null) = true
    ∧ reachedDispatch (postAuthAndDispatch (fun _ => false)
        (some "Bearer bad-token") Json.null) = false := by
  refine ⟨rfl, ?_, ?_⟩
  · exact (C4_auth_gate (fun _ => false) (some "Bearer bad-token")
      Json.null rfl).1
  · exact (C4_auth_gate (fun _ => false) (some "Bearer bad-token")
      Json.null rfl).2

/-! ## C9: custom-tool upstream failures become envelope errors -/

/-- C9 (confirmed): for every custom-tool invocation whose upstream
telemetry call fails (thrown fetch or non-2xx response),
`handleCustomTool` catches the failure — it is total, never rethrowing —
and the gateway answers at transport status 200 with a JSON-RPC envelope
carrying the same id as the request, an `error` member describing the
failure, and no `result` member. -/
theorem C9_upstream_failure (id : Json) (method : String)
    (p : QueryDatasourceParams)
    (upstreamQuery upstreamDatasources : UpstreamOutcome)
    (h : (method = "query_datasource"
            ∧ upstreamFailed upstreamQuery = true)
       ∨ (method = "list_datasources_detailed"
            ∧ upstreamFailed upstreamDatasources = true)) :
    (customToolBranch id method p upstreamQuery upstreamDatasources).1
        = 200
    ∧ jsonLookup (customToolBranch id method p upstreamQuery
        upstreamDatasources).2 "id" = some id
    ∧ (jsonLookup (customToolBranch id method p upstreamQuery
        upstreamDatasources).2 "error").isSome = true
    ∧ (jsonLookup (customToolBranch id method p upstreamQuery
        upstreamDatasources).2 "result").isNone = true := by
  rcases h with ⟨hm, hf⟩ | ⟨hm, hf⟩ <;> subst hm
  · cases upstreamQuery with
    | threw m => exact ⟨rfl, rfl, rfl, rfl⟩
    | httpError st stt b => exact ⟨rfl, rfl, rfl, rfl⟩
    | success j => simp [upstreamFailed] at hf
  · cases upstreamDatasources with
    | threw m => exact ⟨rfl, rfl, rfl, rfl⟩
    | httpError st stt b => exact ⟨rfl, rfl, rfl, rfl⟩
    | success j => simp [upstreamFailed] at hf

/-- C9, witness: a `query_datasource` call whose upstream bulk-query fetch
answers 500 yields a 200 envelope carrying the request id 3. -/
theorem C9_witness :
    upstreamFailed (UpstreamOutcome.httpError 500 "Internal Server Error"
        "boom") = true
    ∧ (customToolBranch (Json.num 3) "query_datasource"
        ⟨"X", Json.obj [], none, none⟩
        (UpstreamOutcome.httpError 500 "Internal Server Error" "boom")
        (UpstreamOutcome.success (Json.arr []))).1 = 200
    ∧ jsonLookup (customToolBranch (Json.num 3) "query_datasource"
        ⟨"X", Json.obj [], none, none⟩
        (UpstreamOutcome.httpError 500 "Internal Server Error" "boom")
        (UpstreamOutcome.success (Json.arr []))).2 "id"
        = some (Json.num 3) := by
  refine ⟨rfl, ?_, ?_⟩
  · exact (C9_upstream_failure (Json.num 3) "query_datasource"
      ⟨"X", Json.obj [], none, none⟩
      (UpstreamOutcome.httpError 500 "Internal Server Error" "boom")
      (UpstreamOutcome.success (Json.arr [])) (Or.inl ⟨rfl, rfl⟩)).1
  · exact (C9_upstream_failure (Json.num 3) "query_datasource"
      ⟨"X", Json.obj [], none, none⟩
      (UpstreamOutcome.httpError 500 "Internal Server Error" "boom")
      (UpstreamOutcome.success (Json.arr [])) (Or.inl ⟨rfl, rfl⟩)).2.1

/-! ## C10: DELETE handling is independent of the Authorization header -/

/-- C10 (confirmed): the DELETE handler performs no token validation and
reads only the `mcp-session-id` header, so any two requests whose session
headers agree — in particular two requests differing only in their
Authorization header — receive identical treatment; in `http` transport
mode the request is forwarded to the backend with the session header when
present and the backend's response is passed through. -/
theorem C10_delete_auth_independent (mcpTransport : String)
    (backend : Option String → BackendResp)
    (headersA headersB : List (String × String))
    (hsess : headerLookup headersA "mcp-session-id"
        = headerLookup headersB "mcp-session-id") :
    deleteHandler mcpTransport backend headersA
        = deleteHandler mcpTransport backend headersB
    ∧ (mcpTransport = "http" →
        deleteHandler mcpTransport backend headersA
          = ((backend (headerLookup headersA "mcp-session-id")).status,
             (backend (headerLookup headersA "mcp-session-id")).body)) := by
  constructor
  · by_cases ht : (mcpTransport == "http") = true
    · simp [deleteHandler, ht, hsess]
    · have htf := eq_false_of_ne_true ht
      simp [deleteHandler, htf]
  · intro hhttp
    subst hhttp
    simp [deleteHandler]

/-- C10, witness: a DELETE with a bearer header and one without, both
carrying session `s1`, get the same backend-forwarded response. -/
theorem C10_witness :
    headerLookup [("Authorization", "Bearer tok-A"),
        ("mcp-session-id", "s1")] "mcp-session-id"
      = headerLookup [("mcp-session-id", "s1")] "mcp-session-id"
    ∧ deleteHandler "http" (fun _ => ⟨204, "No Content", ""⟩)
        [("Authorization", "Bearer tok-A"), ("mcp-session-id", "s1")]
      = deleteHandler "http" (fun _ => ⟨204, "No Content", ""⟩)
        [("mcp-session-id", "s1")] := by
  refine ⟨rfl, ?_⟩
  exact (C10_delete_auth_independent "http"
    (fun _ => ⟨204, "No Content", ""⟩)
    [("Authorization", "Bearer tok-A"), ("mcp-session-id", "s1")]
    [("mcp-session-id", "s1")] rfl).1

/-! ## C8: the single-query build of `query_datasource` -/

/-- Auxiliary for C8: looking up a key bound by the head field. -/
theorem jsonLookup_cons_of_pos (x : String × Json)
    (xs : List (String × Json)) (k : String) (h : (x.1 == k) = true) :
    jsonLookup (Json.obj (x :: xs)) k = some x.2 := by
  simp [jsonLookup, List.find?, h]

/-- Auxiliary for C8: looking up a key not bound by the head field. -/
theorem jsonLookup_cons_of_neg (x : String × Json)
    (xs : List (String × Json)) (k : String) (h : (x.1 == k) = false) :
    jsonLookup (Json.obj (x :: xs)) k = jsonLookup (Json.obj xs) k := by
  simp [jsonLookup, List.find?, h]

/-- Auxiliary for C8: a key absent from the overriding fields of a spread is
looked up among the base fields. -/
theorem objMerge_lookup_right_absent (xs ys : List (String × Json))
    (k : String) (h : (ys.any (fun q => q.1 == k)) = false) :
    jsonLookup (Json.obj (objMerge xs ys)) k
      = jsonLookup (Json.obj xs) k := by
  induction xs with
  | nil =>
      simp only [objMerge, List.filter_nil, List.nil_append, jsonLookup]
      have hnone : List.find? (fun p => p.1 == k) ys = none := by
        rw [List.find?_eq_none]
        intro q hq
        simpa using (List.any_eq_false.mp h) q hq
      rw [hnone]
      rfl
  | cons x xs ih =>
      simp only [objMerge, List.filter_cons] at ih ⊢
      by_cases hkeep : (ys.any (fun q => q.1 == x.1)) = true
      · have hk : (x.1 == k) = false := by
          by_contra hcon
          have hk1 : x.1 = k := by
            have hkt : (x.1 == k) = true := by
              cases hx : (x.1 == k) with
              | true => rfl
              | false => exact absurd hx hcon
            exact beq_iff_eq.mp hkt
          rw [hk1] at hkeep
          rw [hkeep] at h
          cases h
        simp only [hkeep, Bool.not_true, Bool.false_eq_true, if_false]
        conv_rhs => rw [jsonLookup_cons_of_neg x xs k hk]
        exact ih
      · have hkeepf : (ys.any (fun q => q.1 == x.1)) = false :=
          eq_false_of_ne_true hkeep
        simp only [hkeepf, Bool.not_false, if_true, List.cons_append]
        by_cases hk : (x.1 == k) = true
        · conv_lhs => rw [jsonLookup_cons_of_pos x _ k hk]
          conv_rhs => rw [jsonLookup_cons_of_pos x xs k hk]
        · have hkf : (x.1 == k) = false := eq_false_of_ne_true hk
          conv_lhs => rw [jsonLookup_cons_of_neg x _ k hkf]
          conv_rhs => rw [jsonLookup_cons_of_neg x xs k hkf]
          exact ih

/-- Auxiliary for C8: when the opaque query object does not bind
`datasource`, the built query's `datasource` field is the one keyed to the
given uid. -/
theorem buildQuery_datasource (p : QueryDatasourceParams)
    (hq : ((queryFields p.query).any (fun q => q.1 == "datasource"))
        = false) :
    jsonLookup (Json.obj (buildQuery p)) "datasource"
      = some (Json.obj [("uid", Json.str p.datasourceUid)]) := by
  have k1 : (("refId" : String) == "datasource") = false := rfl
  have k2 : (("timeRange" : String) == "datasource") = false := rfl
  have k3 : (("maxDataPoints" : String) == "datasource") = false := rfl
  have htrail : (([("refId", Json.str "A")]
      ++ (match p.timeRange with
          | some t => [("timeRange", Json.obj
              [("from", Json.str (jsOrString t.fromT "now-1h")),
               ("to", Json.str (jsOrString t.toT "now"))])]
          | none => [])
      ++ (match p.maxDataPoints with
          | some n => if n ≠ 0 then [("maxDataPoints", Json.num n)]
              else []
          | none => [])).any (fun q => q.1 == "datasource")) = false := by
    rcases p.timeRange with _ | t <;> rcases p.maxDataPoints with _ | n <;>
      simp only [List.any_append, List.any_cons, List.any_nil,
        k1, k2, k3, Bool.or_false, Bool.false_or] <;>
      first
        | rfl
        | (split <;> simp [k3])
  simp only [buildQuery]
  rw [objMerge_lookup_right_absent _ _ _ htrail,
      objMerge_lookup_right_absent _ _ _ hq]
  rfl

/-- Auxiliary for C8: containment of a pattern exhibited by an explicit
append decomposition. -/
theorem strContains_of_append (a pat b s : String)
    (h : (a ++ pat) ++ b = s) : strContains s pat = true := by
  unfold strContains
  rw [decide_eq_true_eq, ← h]
  refine ⟨a.data, b.data, ?_⟩
  simp [String.data_append, List.append_assoc]

/-- Auxiliary for C8: the summary text contains the frame-count phrase. -/
theorem querySummaryText_contains (p : QueryDatasourceParams) (n : Nat) :
    strContains (querySummaryText p n)
      ("Returned " ++ toString n ++ " data frames.") = true := by
  apply strContains_of_append
    ("**Query Results Summary**\n\n" ++ "Query executed successfully. ")
    ("Returned " ++ toString n ++ " data frames.")
    ("\n\n**Datasource**: " ++ p.datasourceUid
      ++ "\n**Query**: " ++ Json.stringify p.query
      ++ "\n**Time Range**: "
      ++ (match p.timeRange with
          | some t => jsOrString t.fromT "now-1h"
          | none => "now-1h")
      ++ " to "
      ++ (match p.timeRange with
          | some t => jsOrString t.toT "now"
          | none => "now")
      ++ "\n\n**Data Frames**: " ++ toString n)
  simp only [querySummaryText]
  rw [show ("Query executed successfully. Returned " : String)
      = "Query executed successfully. " ++ "Returned " from rfl]
  simp only [String.append_assoc]

/-- Auxiliary for C8: the raw-data text contains the stringified result
payload. -/
theorem queryRawText_contains (result : Json) :
    strContains (queryRawText result) (Json.stringify result) = true := by
  apply strContains_of_append "**Raw Data**:\n```json\n"
    (Json.stringify result) "\n```"
  simp only [queryRawText, String.append_assoc]

/-- C8, counterexample: when the opaque query object itself binds
`datasource`, the object spread `...query` overrides the `datasource:
{uid}` field built from the given identifier: the single query sent
upstream is keyed to the query's own value, not to the given uid `X`. -/
theorem C8_counterexample :
    jsonLookup (Json.obj (buildQuery
        { datasourceUid := "X"
          query := Json.obj [("datasource", Json.str "Y-override")]
          timeRange := none
          maxDataPoints := none })) "datasource"
      = some (Json.str "Y-override")
    ∧ some (Json.str "Y-override")
        ≠ some (Json.obj [("uid", Json.str "X")]) :=
  ⟨rfl, fun h => Json.noConfusion (Option.some.inj h)⟩

/-- C8, amended: for every `query_datasource` invocation whose opaque query
object does not itself bind `datasource`, the request body built for the
upstream bulk query endpoint holds exactly one query, that query's
`datasource` field is keyed to the given uid, and a successful upstream
response yields tool output of two text items: a summary containing the
frame-count phrase, and the raw result payload. -/
theorem C8_single_query_tool (p : QueryDatasourceParams) (result : Json)
    (hq : ((queryFields p.query).any (fun q => q.1 == "datasource"))
        = false) :
    buildQueryRequest p
        = Json.obj [("queries", Json.arr [Json.obj (buildQuery p)])]
    ∧ jsonLookup (Json.obj (buildQuery p)) "datasource"
        = some (Json.obj [("uid", Json.str p.datasourceUid)])
    ∧ queryDatasource p (UpstreamOutcome.success result)
        = Except.ok (Json.obj [("content", Json.arr
            [Json.obj [("type", Json.str "text"),
               ("text", Json.str
                 (querySummaryText p (frameCountOf result)))],
             Json.obj [("type", Json.str "text"),
               ("text", Json.str (queryRawText result))]])])
    ∧ strContains (querySummaryText p (frameCountOf result))
        ("Returned " ++ toString (frameCountOf result) ++ " data frames.")
        = true
    ∧ strContains (queryRawText result) (Json.stringify result) = true :=
  ⟨rfl, buildQuery_datasource p hq, rfl,
   querySummaryText_contains p (frameCountOf result),
   queryRawText_contains result⟩

/-- C8, witness: the spec scenario — query `{expr: up}` against uid `X`
with time range now-1h..now is keyed to `X`. -/
theorem C8_witness :
    ((queryFields (Json.obj [("expr", Json.str "up")])).any
        (fun q => q.1 == "datasource")) = false
    ∧ jsonLookup (Json.obj (buildQuery
        { datasourceUid := "X"
          query := Json.obj [("expr", Json.str "up")]
          timeRange := some ⟨some "now-1h", some "now"⟩
          maxDataPoints := none })) "datasource"
        = some (Json.obj [("uid", Json.str "X")]) := by
  refine ⟨rfl, ?_⟩
  exact (C8_single_query_tool
    { datasourceUid := "X"
      query := Json.obj [("expr", Json.str "up")]
      timeRange := some ⟨some "now-1h", some "now"⟩
      maxDataPoints := none } (Json.obj []) rfl).2.1

end GrafanaMcp
